import Mathlib

/-
Verification of the relay core of bumi/go-nostr (relay.go) against its
natural-language specification.  The Go code is shallowly embedded: the
dispatcher goroutine body (relay.go lines 121-243) becomes a step function
over an explicit relay state and an explicit read result, Publish / Auth /
QuerySync become functions over a trace of the events their select loops can
observe, and Connect becomes a function recording which effects it performs.
External collaborators (JSON decoding, signature checking, the filter match
predicate) are modelled as oracles carried by the input, exactly at the
granularity the Go code consumes them.
-/

namespace GoNostr

/-- Publish status, relay.go lines 17-23: PublishStatusSent = 0,
PublishStatusFailed = -1, PublishStatusSucceeded = 1. -/
inductive Status where
  | sent
  | failed
  | succeeded
deriving DecidableEq

/-- A wire event as consumed by relay.go.  Only the fields the relay core
inspects are modelled: the ID string (compared in Publish and used as the
okCallbacks key) and the outcome of the external CheckSignature call
(an oracle bit, since signature verification is an external collaborator). -/
structure NEvent where
  id : String
  sigOk : Bool
deriving DecidableEq

/-- A decoded JSON array element, at the granularity relay.go consumes it:
each element is fed to json.Unmarshal targeting a string, a bool or an
Event, with the error ignored (the target keeps its zero value on failure). -/
inductive JVal where
  | jstr (s : String)
  | jbool (b : Bool)
  | jevent (e : NEvent)
  | jnull
deriving DecidableEq

/-- json.Unmarshal into a string variable with the error ignored: a failed
decode leaves the Go zero value "". -/
def decodeString : JVal → String
  | .jstr s => s
  | _ => ""

/-- json.Unmarshal into a bool variable with the error ignored: a failed
decode leaves the Go zero value false. -/
def decodeBool : JVal → Bool
  | .jbool b => b
  | _ => false

/-- json.Unmarshal into an Event variable with the error ignored: a failed
decode leaves the zero-value event (empty ID, whose signature check fails). -/
def decodeEvent : JVal → NEvent
  | .jevent e => e
  | _ => ⟨"", false⟩

/-- The per-subscription state the dispatcher reads: the Filters.Match
predicate (external collaborator, modelled as a function), the stopped flag
(subscription.stopped, guarded by subscription.mutex), and the state of the
emitEose sync.Once (true once its Do body has run). -/
structure SubState where
  filterMatch : NEvent → Bool
  stopped : Bool
  eoseEmitted : Bool

/-- The relay state the dispatcher reads and writes: the AssumeValid flag,
the subscriptions map (r.subscriptions, keyed by subscription id) and the
key set of the okCallbacks map (r.okCallbacks; the dispatcher only loads
and invokes callbacks, never stores or deletes them). -/
structure RelayState where
  assumeValid : Bool
  subs : List (String × SubState)
  okCbs : List String

/-- Observable effects of one iteration of the dispatcher loop body. -/
inductive Action where
  | errorOut (e : String)
  | pong
  | notice (s : String)
  | challenge (s : String)
  | logNoSub (subId : String)
  | logNoMatch
  | lockSub (subId : String)
  | unlockSub (subId : String)
  | logBadSig
  | deliver (subId : String) (e : NEvent)
  | eoseSignal (subId : String)
  | okInvoke (eid : String) (accepted : Bool) (m : String)
deriving DecidableEq

/-- One result of ws.ReadMessage(): either an error (recws surfaces read
failures and not-connected states as errors, including after the transport
is permanently closed), or a message with its websocket frame type
(TextMessage = 1, PingMessage = 9), its raw bytes (relay.go only inspects
emptiness and the first byte), and the result of json.Unmarshal into a
[]json.RawMessage (none when unmarshalling fails). -/
inductive ReadResult where
  | failure (e : String)
  | msg (typ : Nat) (bytes : List Nat) (parsed : Option (List JVal))

/-- Result of one iteration of the dispatcher loop body: the relay state
afterwards, the actions performed, and whether the iteration left the loop.
Every path of the loop body in relay.go lines 122-240 ends in continue or
falls through to the next iteration; no path breaks or returns, so the
cancel() on line 242 runs only if exitsLoop is ever true. -/
structure StepResult where
  state : RelayState
  actions : List Action
  exitsLoop : Bool

/-- r.subscriptions.Load: look up a subscription by id in the table. -/
def loadSub (subs : List (String × SubState)) (subId : String) : Option SubState :=
  match subs with
  | [] => none
  | (k, v) :: rest => if subId = k then some v else loadSub rest subId

/-- The emitEose sync.Once marks the subscription so a later Do is a no-op. -/
def markEose (subs : List (String × SubState)) (subId : String) : List (String × SubState) :=
  subs.map (fun p => if p.1 = subId then (p.1, { p.2 with eoseEmitted := true }) else p)

/-- One iteration of the dispatcher loop body, relay.go lines 122-240.
A read error is sent to r.Errors from a spawned goroutine and the loop
continues (lines 124-129).  A ping is answered with a pong (131-134).
Non-text, empty, or not-bracket-initial messages are dropped (136-138), as
are messages that fail to unmarshal (140-144) or have fewer than 2 elements
(146-148).  The first element is decoded as the command and routed by the
switch on lines 153-239; an unknown command falls through the switch and is
dropped. -/
def dispatchStep (r : RelayState) (inp : ReadResult) : StepResult :=
  match inp with
  | .failure e => ⟨r, [.errorOut e], false⟩
  | .msg typ bytes parsed =>
    if typ = 9 then ⟨r, [.pong], false⟩
    else if typ ≠ 1 ∨ bytes = [] ∨ bytes.headD 0 ≠ 91 then ⟨r, [], false⟩
    else
      match parsed with
      | none => ⟨r, [], false⟩
      | some arr =>
        if arr.length < 2 then ⟨r, [], false⟩
        else
          match decodeString (arr.getD 0 .jnull) with
          | "NOTICE" => ⟨r, [.notice (decodeString (arr.getD 1 .jnull))], false⟩
          | "AUTH" => ⟨r, [.challenge (decodeString (arr.getD 1 .jnull))], false⟩
          | "EVENT" =>
            if arr.length < 3 then ⟨r, [], false⟩
            else
              let subId := decodeString (arr.getD 1 .jnull)
              match loadSub r.subs subId with
              | none => ⟨r, [.logNoSub subId], false⟩
              | some sub =>
                let ev := decodeEvent (arr.getD 2 .jnull)
                if sub.filterMatch ev = false then ⟨r, [.logNoMatch], false⟩
                else if sub.stopped then ⟨r, [.lockSub subId, .unlockSub subId], false⟩
                else if r.assumeValid = false ∧ ev.sigOk = false then
                  ⟨r, [.lockSub subId, .logBadSig, .unlockSub subId], false⟩
                else ⟨r, [.lockSub subId, .deliver subId ev, .unlockSub subId], false⟩
          | "EOSE" =>
            if arr.length < 2 then ⟨r, [], false⟩
            else
              let subId := decodeString (arr.getD 1 .jnull)
              match loadSub r.subs subId with
              | none => ⟨r, [], false⟩
              | some sub =>
                if sub.eoseEmitted then ⟨r, [], false⟩
                else ⟨{ r with subs := markEose r.subs subId }, [.eoseSignal subId], false⟩
          | "OK" =>
            if arr.length < 3 then ⟨r, [], false⟩
            else
              let eid := decodeString (arr.getD 1 .jnull)
              let accepted := decodeBool (arr.getD 2 .jnull)
              let m := if 3 < arr.length then decodeString (arr.getD 3 .jnull) else ""
              if eid ∈ r.okCbs then ⟨r, [.okInvoke eid accepted m], false⟩
              else ⟨r, [], false⟩
          | _ => ⟨r, [], false⟩

/-- The dispatcher loop run over a list of successive read results,
folding dispatchStep and concatenating the actions. -/
def dispatchRun (r : RelayState) : List ReadResult → RelayState × List Action
  | [] => (r, [])
  | inp :: rest =>
    let s := dispatchStep r inp
    let t := dispatchRun s.state rest
    (t.1, s.actions ++ t.2)

/-- An inbound EVENT frame carrying a subscription id and an event payload,
as a text message whose JSON decoding succeeded. -/
def eventFrame (subId : String) (ev : NEvent) : ReadResult :=
  .msg 1 [91] (some [.jstr "EVENT", .jstr subId, .jevent ev])

/-- An inbound EOSE frame carrying a subscription id. -/
def eoseFrame (subId : String) : ReadResult :=
  .msg 1 [91] (some [.jstr "EOSE", .jstr subId])

/-- One event observed by the select loop of Publish (relay.go lines
290-316) or, interleaved with it, an invocation of the okCallback
registered on line 281: a receive from sub.Events (none models the nil
received from a closed channel), the okCallback running with its two
arguments, the cancellable context becoming done (deadline, caller
cancellation, or the cancel() issued by the okCallback), or the
connection-scoped context becoming done. -/
inductive LoopEvt where
  | recv (e : Option NEvent)
  | okCb (accepted : Bool) (m : String)
  | ctxDone
  | connDone
deriving DecidableEq

/-- The select loop of Publish, relay.go lines 290-316, over the trace of
observed events, threading the mutex-guarded status and err variables.
A received event equal in ID to the published event returns succeeded; a
different ID is ignored and the loop continues; a nil event (closed
channel) returns the current status and err; ctx.Done and
r.ConnectionContext.Done return the current status and err.  An okCallback
invocation (relay.go lines 270-280) sets status to succeeded, or to failed
with err set from the message, and the loop continues (the cancel() it
issues surfaces later in the trace as ctxDone).  none means the trace ran
out with the loop still blocked. -/
def publishLoop (eid : String) (st : Status) (err : Option String) :
    List LoopEvt → Option (Status × Option String)
  | [] => none
  | .recv none :: _ => some (st, err)
  | .recv (some e) :: rest =>
    if e.id = eid then some (.succeeded, err)
    else publishLoop eid st err rest
  | .okCb true _ :: rest => publishLoop eid .succeeded err rest
  | .okCb false m :: rest => publishLoop eid .failed (some ("msg: " ++ m)) rest
  | .ctxDone :: _ => some (st, err)
  | .connDone :: _ => some (st, err)

/-- Publish, relay.go lines 250-317: status starts as sent; the okCallback
is registered, then the EVENT frame is written; a write failure returns
immediately with the current status (sent) and the write error; otherwise
the echo subscription is opened and the select loop runs over the trace. -/
def publishT (eid : String) (writeErr : Option String) (trace : List LoopEvt) :
    Option (Status × Option String) :=
  match writeErr with
  | some w => some (.sent, some w)
  | none => publishLoop eid .sent none trace

/-- The default timeout forced on Publish when the caller supplies no
deadline, relay.go line 260: 3 seconds. -/
def publishDefaultTimeout : Nat := 3

/-- One event observed while Auth blocks: the okCallback running
(relay.go lines 341-351), the cancellable context becoming done (deadline,
caller cancellation, or the cancel() issued by the okCallback), or the
connection-scoped context becoming done.  Auth opens no subscription, so
there is no receive case. -/
inductive AuthEvt where
  | okCb (accepted : Bool) (m : String)
  | ctxDone
  | connDone
deriving DecidableEq

/-- The wait of Auth, relay.go line 368: a bare receive on ctx.Done().
An okCallback invocation sets status to succeeded, or to failed with err
set from the message, and cancels ctx, so the wait ends with those values.
ctx.Done ends the wait with the current status and err.  The
connection-scoped context is not selected on by Auth, so its becoming done
leaves the wait blocked and the trace continues.  none means the trace ran
out with Auth still blocked. -/
def authWait (st : Status) (err : Option String) :
    List AuthEvt → Option (Status × Option String)
  | [] => none
  | .okCb true _ :: _ => some (.succeeded, err)
  | .okCb false m :: _ => some (.failed, some ("msg: " ++ m))
  | .ctxDone :: _ => some (st, err)
  | .connDone :: rest => authWait st err rest

/-- Auth, relay.go lines 321-372: status starts as failed; the okCallback
is registered, then the AUTH frame is written; a write failure returns
immediately with the current status (failed) and the write error;
otherwise status is set to sent under the lock and Auth blocks on
ctx.Done() until the wait resolves. -/
def authT (writeErr : Option String) (trace : List AuthEvt) :
    Option (Status × Option String) :=
  match writeErr with
  | some w => some (.failed, some w)
  | none => authWait .sent none trace

/-- The default timeout forced on Auth when the caller supplies no
deadline, relay.go line 331: 3 seconds. -/
def authDefaultTimeout : Nat := 3

/-- A Publish or Auth call together with its effect on the okCallbacks
registry, modelled as the set of registered event IDs: the call result,
the registry at the moment the frame is written (after the Store on
relay.go line 281 resp. 352), and the registry when the call returns
(after the deferred Delete on line 282 resp. 353, which runs on every
return path). -/
structure CallTrace where
  result : Option (Status × Option String)
  regAtSend : List String
  regAfter : List String

/-- Publish with its registry effect: Store the callback under the event
ID, write the frame, run the select loop, and Delete the entry on return
whatever the outcome. -/
def publishCall (eid : String) (writeErr : Option String) (trace : List LoopEvt)
    (reg : List String) : CallTrace :=
  let atSend := reg.insert eid
  ⟨publishT eid writeErr trace, atSend, atSend.filter (fun k => !(k == eid))⟩

/-- Auth with its registry effect: Store the callback under the event ID,
write the frame, block, and Delete the entry on return whatever the
outcome. -/
def authCall (eid : String) (writeErr : Option String) (trace : List AuthEvt)
    (reg : List String) : CallTrace :=
  let atSend := reg.insert eid
  ⟨authT writeErr trace, atSend, atSend.filter (fun k => !(k == eid))⟩

/-- One event observed by the select loop of QuerySync, relay.go lines
401-414: a receive from sub.Events (none models the nil received from a
closed channel), the end-of-stored-events signal, or ctx.Done (deadline or
caller cancellation). -/
inductive QEvt where
  | recv (e : Option NEvent)
  | eose
  | ctxDone
deriving DecidableEq

/-- The select loop of QuerySync over the trace of observed events,
accumulating received events in arrival order by append and returning the
accumulated list at the first of: a nil event (closed channel), the
end-of-stored-events signal, or ctx.Done.  none means the trace ran out
with the loop still blocked. -/
def querySyncLoop (acc : List NEvent) : List QEvt → Option (List NEvent)
  | [] => none
  | .recv none :: _ => some acc
  | .recv (some e) :: rest => querySyncLoop (acc ++ [e]) rest
  | .eose :: _ => some acc
  | .ctxDone :: _ => some acc

/-- QuerySync, relay.go lines 389-415: subscribes, defers sub.Unsub()
(which therefore runs on every return path, before the call returns), and
collects events until the loop resolves.  The Bool records that Unsub ran
before returning. -/
def querySync (trace : List QEvt) : Option (List NEvent) × Bool :=
  (querySyncLoop [] trace, true)

/-- The default timeout forced on QuerySync when the caller supplies no
deadline, relay.go line 396: 7 seconds. -/
def querySyncDefaultTimeout : Nat := 7

/-- The observable outcome of Connect, relay.go lines 76-96 and 245:
whether an error is returned, whether a dial was started, whether the
connection-scoped cancel was invoked during Connect, and the timeout
installed on the (afterwards unused) context. -/
structure ConnectResult where
  errored : Bool
  dialed : Bool
  cancelFired : Bool
  timeoutSeconds : Option Nat
deriving DecidableEq

/-- Connect, relay.go lines 76-96 and 245.  An empty URL invokes the
connection-scoped cancel and returns an error before any dial (lines
80-83).  Otherwise a context with the caller deadline, defaulted to 7
seconds, is built (lines 85-90), ws.Dial starts the connection in the
background (recws dials asynchronously and retries on its own), the
channels and goroutines are set up, and Connect returns nil on line 245;
the context is never consulted after line 90, so the result does not
depend on whether the connection completes before the deadline. -/
def connect (url : String) (callerTimeout : Option Nat) : ConnectResult :=
  if url = "" then ⟨true, false, true, none⟩
  else ⟨false, true, false, some (callerTimeout.getD 7)⟩

/-- Claim C1.  On a transport read failure the dispatcher surfaces the
error on the errors stream, leaves the relay state unchanged, and
continues processing subsequent read results.  However, the loop body of
relay.go lines 122-240 has no break or return on any path, so the
dispatcher never exits on any input, including a read failure from a
permanently closed transport; consequently the cancel() on line 242 is
unreachable and the connection-scoped cancellation never fires from the
dispatcher, contradicting the claim (and the comment on relay.go line 50)
that it fires when the transport closes. -/
theorem dispatcher_read_failure_continues_and_never_exits :
    (∀ (r : RelayState) (e : String),
      dispatchStep r (.failure e) = ⟨r, [.errorOut e], false⟩) ∧
    (∀ (r : RelayState) (e : String) (rest : List ReadResult),
      dispatchRun r (.failure e :: rest) =
        ((dispatchRun r rest).1, .errorOut e :: (dispatchRun r rest).2)) ∧
    (∀ (r : RelayState) (inp : ReadResult), (dispatchStep r inp).exitsLoop = false) := by
  refine ⟨fun r e => rfl, fun r e rest => rfl, fun r inp => ?_⟩
  cases inp with
  | failure e => rfl
  | msg typ bytes parsed =>
    simp only [dispatchStep]
    repeat' split
    all_goals rfl

/-- Claim C7.  Every malformed inbound frame — non-text (and non-ping)
type, empty or not-bracket-initial bytes, failed JSON array decode, fewer
than 2 elements, unknown command tag, or undersized for a known tag (EVENT
or OK with fewer than 3 elements; EOSE with fewer than 2 is subsumed by
the fewer-than-2 gate) — is dropped with no actions, no error, unchanged
subscription table and okCallbacks registry, and no loop exit.  A ping is
answered with a pong, also with unchanged state and no exit; the
underlying websocket library never yields ping frames from ReadMessage,
so every non-text frame it can actually return is dropped. -/
theorem malformed_frames_dropped :
    (∀ (r : RelayState) (typ : Nat) (bytes : List Nat) (parsed : Option (List JVal)),
      typ ≠ 1 → typ ≠ 9 → dispatchStep r (.msg typ bytes parsed) = ⟨r, [], false⟩) ∧
    (∀ (r : RelayState) (bytes : List Nat) (parsed : Option (List JVal)),
      dispatchStep r (.msg 9 bytes parsed) = ⟨r, [.pong], false⟩) ∧
    (∀ (r : RelayState) (bytes : List Nat) (parsed : Option (List JVal)),
      bytes.headD 0 ≠ 91 → dispatchStep r (.msg 1 bytes parsed) = ⟨r, [], false⟩) ∧
    (∀ (r : RelayState) (bytes : List Nat),
      dispatchStep r (.msg 1 bytes none) = ⟨r, [], false⟩) ∧
    (∀ (r : RelayState) (bytes : List Nat) (arr : List JVal),
      arr.length < 2 → dispatchStep r (.msg 1 bytes (some arr)) = ⟨r, [], false⟩) ∧
    (∀ (r : RelayState) (bytes : List Nat) (arr : List JVal),
      decodeString (arr.getD 0 .jnull) ∉ (["NOTICE", "AUTH", "EVENT", "EOSE", "OK"] : List String) →
      dispatchStep r (.msg 1 bytes (some arr)) = ⟨r, [], false⟩) ∧
    (∀ (r : RelayState) (bytes : List Nat) (arr : List JVal),
      decodeString (arr.getD 0 .jnull) = "EVENT" → arr.length < 3 →
      dispatchStep r (.msg 1 bytes (some arr)) = ⟨r, [], false⟩) ∧
    (∀ (r : RelayState) (bytes : List Nat) (arr : List JVal),
      decodeString (arr.getD 0 .jnull) = "OK" → arr.length < 3 →
      dispatchStep r (.msg 1 bytes (some arr)) = ⟨r, [], false⟩) := by
  refine ⟨?_, ?_, ?_, ?_, ?_, ?_, ?_, ?_⟩
  · intro r typ bytes parsed h1 h9
    simp [dispatchStep, h1, h9]
  · intro r bytes parsed
    simp [dispatchStep]
  · intro r bytes parsed h
    simp only [dispatchStep]
    repeat' split
    all_goals first | rfl | omega
  · intro r bytes
    simp only [dispatchStep]
    repeat' split
    all_goals first | rfl | omega
  · intro r bytes arr h
    simp only [dispatchStep]
    repeat' split
    all_goals first | rfl | omega
  · intro r bytes arr h
    simp only [dispatchStep]
    repeat' split
    all_goals first | rfl | omega | simp_all
  · intro r bytes arr h hlen
    simp only [dispatchStep]
    repeat' split
    all_goals first | rfl | omega | simp_all
  · intro r bytes arr h hlen
    simp only [dispatchStep]
    repeat' split
    all_goals first | rfl | omega | simp_all

/-- Evaluation of the dispatcher step on a well-formed EVENT frame: the
byte and length gates pass and the switch selects the EVENT case, leaving
exactly the subscription lookup, filter match, stop flag and signature
checks of relay.go lines 166-208. -/
theorem dispatchStep_eventFrame (r : RelayState) (subId : String) (ev : NEvent) :
    dispatchStep r (eventFrame subId ev) =
      match loadSub r.subs subId with
      | none => ⟨r, [.logNoSub subId], false⟩
      | some sub =>
        if sub.filterMatch ev = false then ⟨r, [.logNoMatch], false⟩
        else if sub.stopped then ⟨r, [.lockSub subId, .unlockSub subId], false⟩
        else if r.assumeValid = false ∧ ev.sigOk = false then
          ⟨r, [.lockSub subId, .logBadSig, .unlockSub subId], false⟩
        else ⟨r, [.lockSub subId, .deliver subId ev, .unlockSub subId], false⟩ := rfl

/-- Evaluation of the dispatcher step on a well-formed EOSE frame: the
gates pass and the switch selects the EOSE case, leaving the subscription
lookup and the emitEose once-guard of relay.go lines 209-219. -/
theorem dispatchStep_eoseFrame (r : RelayState) (subId : String) :
    dispatchStep r (eoseFrame subId) =
      match loadSub r.subs subId with
      | none => ⟨r, [], false⟩
      | some sub =>
        if sub.eoseEmitted then ⟨r, [], false⟩
        else ⟨{ r with subs := markEose r.subs subId }, [.eoseSignal subId], false⟩ := rfl

/-- Claim C5.  An EVENT frame whose subscription id is unknown is
discarded with only a diagnostic, no delivery and no panic (the handler is
total); when the subscription exists, the event is delivered exactly when
the filters match, the stopped flag is false, and the signature verifies
unless the relay is configured AssumeValid; and every delivery happens
between the lock and unlock of the subscription stop-flag mutex, as does
the discard of a stopped subscription. -/
theorem event_frame_delivery :
    (∀ (r : RelayState) (subId : String) (ev : NEvent),
      loadSub r.subs subId = none →
      dispatchStep r (eventFrame subId ev) = ⟨r, [.logNoSub subId], false⟩) ∧
    (∀ (r : RelayState) (subId : String) (ev : NEvent) (sub : SubState),
      loadSub r.subs subId = some sub →
      (Action.deliver subId ev ∈ (dispatchStep r (eventFrame subId ev)).actions ↔
        (sub.filterMatch ev = true ∧ sub.stopped = false ∧
          (r.assumeValid = true ∨ ev.sigOk = true)))) ∧
    (∀ (r : RelayState) (subId : String) (ev : NEvent) (sub : SubState),
      loadSub r.subs subId = some sub →
      Action.deliver subId ev ∈ (dispatchStep r (eventFrame subId ev)).actions →
      (dispatchStep r (eventFrame subId ev)).actions =
        [.lockSub subId, .deliver subId ev, .unlockSub subId]) ∧
    (∀ (r : RelayState) (subId : String) (ev : NEvent) (sub : SubState),
      loadSub r.subs subId = some sub → sub.filterMatch ev = true → sub.stopped = true →
      dispatchStep r (eventFrame subId ev) = ⟨r, [.lockSub subId, .unlockSub subId], false⟩) := by
  refine ⟨?_, ?_, ?_, ?_⟩
  · intro r subId ev h
    rw [dispatchStep_eventFrame, h]
  · intro r subId ev sub h
    rw [dispatchStep_eventFrame, h]
    cases hf : sub.filterMatch ev <;> cases hs : sub.stopped <;>
      cases ha : r.assumeValid <;> cases hg : ev.sigOk <;>
        simp [hf, hs, ha, hg]
  · intro r subId ev sub h hm
    rw [dispatchStep_eventFrame, h]
    rw [dispatchStep_eventFrame, h] at hm
    cases hf : sub.filterMatch ev <;> cases hs : sub.stopped <;>
      cases ha : r.assumeValid <;> cases hg : ev.sigOk <;>
        simp_all
  · intro r subId ev sub h hf hs
    rw [dispatchStep_eventFrame, h]
    simp [hf, hs]

/-- Witness for event_frame_delivery: an unknown subscription id on an
empty table gives only the diagnostic, and for a registered always-match,
not-stopped subscription on an untrusted relay a validly signed event is
delivered. -/
theorem event_frame_delivery_witness :
    dispatchStep ⟨false, [], []⟩ (eventFrame "9" ⟨"e", true⟩) =
      ⟨⟨false, [], []⟩, [Action.logNoSub "9"], false⟩ ∧
    (Action.deliver "1" ⟨"e", true⟩ ∈
        (dispatchStep ⟨false, [("1", ⟨fun _ => true, false, false⟩)], []⟩
          (eventFrame "1" ⟨"e", true⟩)).actions ↔
      (SubState.filterMatch ⟨fun _ => true, false, false⟩ ⟨"e", true⟩ = true ∧
        SubState.stopped ⟨fun _ => true, false, false⟩ = false ∧
        (RelayState.assumeValid ⟨false, [("1", ⟨fun _ => true, false, false⟩)], []⟩ = true ∨
          NEvent.sigOk ⟨"e", true⟩ = true))) :=
  ⟨event_frame_delivery.1 ⟨false, [], []⟩ "9" ⟨"e", true⟩ rfl,
   event_frame_delivery.2.1 ⟨false, [("1", ⟨fun _ => true, false, false⟩)], []⟩ "1"
     ⟨"e", true⟩ ⟨fun _ => true, false, false⟩ rfl⟩

/-- Looking up the same subscription after the emitEose once-guard has
been marked yields the same subscription with eoseEmitted set. -/
theorem loadSub_markEose (subs : List (String × SubState)) (subId : String) (sub : SubState)
    (h : loadSub subs subId = some sub) :
    loadSub (markEose subs subId) subId = some { sub with eoseEmitted := true } := by
  induction subs with
  | nil => simp [loadSub] at h
  | cons p rest ih =>
    obtain ⟨k, v⟩ := p
    by_cases hk : subId = k
    · subst hk
      simp [loadSub] at h
      subst h
      have hhead : markEose ((subId, v) :: rest) subId =
          (subId, { v with eoseEmitted := true }) :: markEose rest subId := by
        simp [markEose]
      rw [hhead]
      simp [loadSub]
    · have hk2 : ¬(k = subId) := fun e => hk e.symm
      simp only [loadSub, if_neg hk] at h
      simp only [markEose, List.map_cons] at ih ⊢
      simp only [if_neg hk2]
      simpa [loadSub, if_neg hk] using ih h

/-- Claim C6.  The end-of-stored-events signal of a subscription fires at
most once: the first EOSE frame for a registered subscription whose
emitEose guard has not yet run emits the signal, and a second EOSE frame
for the same subscription id emits nothing and leaves the relay state
unchanged, so the two frames together fire the signal exactly once. -/
theorem eose_idempotent :
    ∀ (r : RelayState) (subId : String) (sub : SubState),
      loadSub r.subs subId = some sub → sub.eoseEmitted = false →
      (dispatchStep r (eoseFrame subId)).actions = [.eoseSignal subId] ∧
      (dispatchStep (dispatchStep r (eoseFrame subId)).state (eoseFrame subId)).actions = [] ∧
      (dispatchStep (dispatchStep r (eoseFrame subId)).state (eoseFrame subId)).state =
        (dispatchStep r (eoseFrame subId)).state ∧
      ((dispatchStep r (eoseFrame subId)).actions ++
          (dispatchStep (dispatchStep r (eoseFrame subId)).state (eoseFrame subId)).actions).count
        (.eoseSignal subId) = 1 := by
  intro r subId sub h he
  have h1 : dispatchStep r (eoseFrame subId) =
      ⟨{ r with subs := markEose r.subs subId }, [.eoseSignal subId], false⟩ := by
    rw [dispatchStep_eoseFrame, h]
    simp [he]
  have h2 : dispatchStep { r with subs := markEose r.subs subId } (eoseFrame subId) =
      ⟨{ r with subs := markEose r.subs subId }, [], false⟩ := by
    rw [dispatchStep_eoseFrame]
    have : loadSub ({ r with subs := markEose r.subs subId } : RelayState).subs subId =
        some { sub with eoseEmitted := true } := loadSub_markEose r.subs subId sub h
    rw [this]
    simp
  rw [h1]
  simp only [h2]
  simp

/-- Witness for eose_idempotent on a one-subscription table: the first
EOSE frame signals, the second is a no-op, and the combined signal count
is one. -/
theorem eose_idempotent_witness :
    (dispatchStep ⟨false, [("1", ⟨fun _ => true, false, false⟩)], []⟩ (eoseFrame "1")).actions =
      [Action.eoseSignal "1"] ∧
    (dispatchStep (dispatchStep ⟨false, [("1", ⟨fun _ => true, false, false⟩)], []⟩
        (eoseFrame "1")).state (eoseFrame "1")).actions = [] ∧
    (dispatchStep (dispatchStep ⟨false, [("1", ⟨fun _ => true, false, false⟩)], []⟩
        (eoseFrame "1")).state (eoseFrame "1")).state =
      (dispatchStep ⟨false, [("1", ⟨fun _ => true, false, false⟩)], []⟩ (eoseFrame "1")).state ∧
    ((dispatchStep ⟨false, [("1", ⟨fun _ => true, false, false⟩)], []⟩ (eoseFrame "1")).actions ++
        (dispatchStep (dispatchStep ⟨false, [("1", ⟨fun _ => true, false, false⟩)], []⟩
          (eoseFrame "1")).state (eoseFrame "1")).actions).count (Action.eoseSignal "1") = 1 :=
  eose_idempotent ⟨false, [("1", ⟨fun _ => true, false, false⟩)], []⟩ "1"
    ⟨fun _ => true, false, false⟩ rfl rfl

/-- Witness for malformed_frames_dropped: a binary frame, an unknown-tag
frame and an undersized EVENT frame are each dropped with no actions, an
unchanged state and no loop exit. -/
theorem malformed_frames_dropped_witness :
    dispatchStep ⟨false, [], []⟩ (.msg 2 [91] (some [.jstr "NOTICE", .jstr "hi"])) =
      ⟨⟨false, [], []⟩, [], false⟩ ∧
    dispatchStep ⟨false, [], []⟩ (.msg 1 [91] (some [.jstr "XYZ", .jstr "a"])) =
      ⟨⟨false, [], []⟩, [], false⟩ ∧
    dispatchStep ⟨false, [], []⟩ (.msg 1 [91] (some [.jstr "EVENT", .jstr "1"])) =
      ⟨⟨false, [], []⟩, [], false⟩ :=
  ⟨malformed_frames_dropped.1 ⟨false, [], []⟩ 2 [91] _ (by decide) (by decide),
    malformed_frames_dropped.2.2.2.2.2.1 ⟨false, [], []⟩ [91] _ (by decide),
    malformed_frames_dropped.2.2.2.2.2.2.1 ⟨false, [], []⟩ [91] _ (by decide) (by decide)⟩

/-- Silent runs of the Publish select loop: receives whose event ID
differs from the published ID are skipped, so a trace with no okCallback
invocation and no matching echo that ends in ctxDone or connDone resolves
with the status and error the loop started with. -/
theorem publishLoop_no_confirmation (eid : String) (st : Status) (err : Option String)
    (es : List NEvent) (t : LoopEvt) (rest : List LoopEvt)
    (hes : ∀ e ∈ es, e.id ≠ eid) (ht : t = .ctxDone ∨ t = .connDone) :
    publishLoop eid st err (es.map (fun e => LoopEvt.recv (some e)) ++ t :: rest) =
      some (st, err) := by
  induction es with
  | nil =>
    rcases ht with h | h <;> subst h <;> rfl
  | cons e es ih =>
    have h1 : e.id ≠ eid := hes e (by simp)
    simp only [List.map_cons, List.cons_append, publishLoop, if_neg h1]
    exact ih (fun x hx => hes x (by simp [hx]))

/-- Claim C2.  Publish returns immediately with status sent and the write
error when writing the EVENT frame fails; otherwise it resolves at the
first terminating trace event: an echoed event with the published ID gives
succeeded, an okCallback invocation determines the status returned when
the cancellation it issues surfaces, and a trace with no confirmation that
ends with the deadline (ctxDone) or the connection-scoped cancellation
(connDone) returns sent with no error; the defaulted deadline is 3 time
units. -/
theorem publish_behavior :
    (∀ (eid w : String) (trace : List LoopEvt),
      publishT eid (some w) trace = some (.sent, some w)) ∧
    (∀ (eid : String) (b : Bool) (rest : List LoopEvt),
      publishT eid none (.recv (some ⟨eid, b⟩) :: rest) = some (.succeeded, none)) ∧
    (∀ (eid m : String) (rest : List LoopEvt),
      publishT eid none (.okCb true m :: .ctxDone :: rest) = some (.succeeded, none)) ∧
    (∀ (eid m : String) (rest : List LoopEvt),
      publishT eid none (.okCb false m :: .ctxDone :: rest) =
        some (.failed, some ("msg: " ++ m))) ∧
    (∀ (eid : String) (es : List NEvent) (t : LoopEvt) (rest : List LoopEvt),
      (∀ e ∈ es, e.id ≠ eid) → (t = .ctxDone ∨ t = .connDone) →
      publishT eid none (es.map (fun e => LoopEvt.recv (some e)) ++ t :: rest) =
        some (.sent, none)) ∧
    publishDefaultTimeout = 3 := by
  refine ⟨fun eid w trace => rfl, fun eid b rest => ?_, fun eid m rest => rfl,
    fun eid m rest => rfl, fun eid es t rest hes ht => ?_, rfl⟩
  · simp [publishT, publishLoop]
  · exact publishLoop_no_confirmation eid .sent none es t rest hes ht

/-- Witness for publish_behavior: a trace holding one non-matching echo
and then the deadline returns sent with no error. -/
theorem publish_behavior_witness :
    publishT "a" none [.recv (some ⟨"b", true⟩), .ctxDone] = some (.sent, none) :=
  publish_behavior.2.2.2.2.1 "a" [⟨"b", true⟩] .ctxDone [] (by decide) (Or.inl rfl)

/-- Claim C10.  In the Publish select loop a received event counts as
success only when its ID equals the published ID: a different ID is
skipped and the wait continues with unchanged status and error, and a nil
receive from the closed echo channel ends the call returning the current
status and error rather than forcing succeeded. -/
theorem publish_ignores_other_ids :
    (∀ (eid : String) (st : Status) (err : Option String) (e : NEvent) (rest : List LoopEvt),
      e.id ≠ eid →
      publishLoop eid st err (.recv (some e) :: rest) = publishLoop eid st err rest) ∧
    (∀ (eid : String) (st : Status) (err : Option String) (rest : List LoopEvt),
      publishLoop eid st err (.recv none :: rest) = some (st, err)) := by
  refine ⟨fun eid st err e rest h => ?_, fun eid st err rest => rfl⟩
  simp [publishLoop, h]

/-- Witness for publish_ignores_other_ids: an echo with ID b is skipped by
a publish of ID a, leaving the loop to resolve on the rest of the trace. -/
theorem publish_ignores_other_ids_witness :
    publishLoop "a" .sent none [.recv (some ⟨"b", true⟩), .ctxDone] =
      publishLoop "a" .sent none [.ctxDone] :=
  publish_ignores_other_ids.1 "a" .sent none ⟨"b", true⟩ [.ctxDone] (by decide)

/-- Claim C3, counterexample.  The claim says Auth blocks until the
deadline, caller cancellation, connection loss, or the confirmation
callback, then returns the final status; but Auth waits only on its own
cancellable context (relay.go line 368), so a trace in which only the
connection-scoped cancellation fires leaves Auth still blocked: the wait
does not resolve. -/
theorem auth_connection_loss_does_not_return :
    authT none [AuthEvt.connDone] = none := rfl

/-- Claim C3 as amended: connection loss does not unblock the wait.  A
write failure returns immediately with status failed and the write error;
otherwise status is set to sent and Auth blocks until the deadline or
caller cancellation (ctxDone) or the confirmation callback fires, ignoring
the connection-scoped cancellation; an accepted=false confirmation with
message restricted returns failed with an error containing restricted;
the defaulted deadline is 3 time units. -/
theorem auth_behavior_amended :
    (∀ (w : String) (trace : List AuthEvt),
      authT (some w) trace = some (.failed, some w)) ∧
    (∀ (st : Status) (err : Option String) (rest : List AuthEvt),
      authWait st err (.connDone :: rest) = authWait st err rest) ∧
    (∀ (rest : List AuthEvt), authT none (.ctxDone :: rest) = some (.sent, none)) ∧
    (∀ (m : String) (rest : List AuthEvt),
      authT none (.okCb false m :: rest) = some (.failed, some ("msg: " ++ m))) ∧
    (∀ (m : String) (rest : List AuthEvt),
      authT none (.okCb true m :: rest) = some (.succeeded, none)) ∧
    authT none [.connDone, .okCb false "restricted"] =
      some (.failed, some ("msg: " ++ "restricted")) ∧
    authDefaultTimeout = 3 :=
  ⟨fun _ _ => rfl, fun _ _ _ => rfl, fun _ => rfl,
    fun _ _ => rfl, fun _ _ => rfl, rfl, rfl⟩

/-- A key is never a member of the list filtered on differing from it. -/
theorem not_mem_filter_out (a : String) (l : List String) :
    a ∉ l.filter (fun k => !(k == a)) := by
  intro h
  have := List.mem_filter.mp h
  simp at this

/-- Filtering out a key that does not occur leaves the list unchanged. -/
theorem filter_ne_self (l : List String) (a : String) (h : a ∉ l) :
    l.filter (fun k => !(k == a)) = l := by
  induction l with
  | nil => rfl
  | cons b bs ih =>
    have hb : b ≠ a := fun e => h (by simp [e])
    have hbs : a ∉ bs := fun e => h (by simp [e])
    simp [List.filter_cons, hb, ih hbs]

/-- Deleting the inserted key returns the registry to its prior contents
when the key was absent before. -/
theorem filter_out_insert (l : List String) (a : String) (h : a ∉ l) :
    (l.insert a).filter (fun k => !(k == a)) = l := by
  rw [List.insert_of_not_mem h, List.filter_cons]
  simp [filter_ne_self l a h]

/-- Claim C4.  For every Publish or Auth call, on every outcome, the
okCallbacks registry holds the event ID at the moment the frame is written
(the Store precedes the write), no longer holds it when the call returns
(the deferred Delete runs on every return path), and when the ID was
absent before the call the registry contents are identical before and
after. -/
theorem registry_no_leak :
    (∀ (eid : String) (w : Option String) (trace : List LoopEvt) (reg : List String),
      eid ∈ (publishCall eid w trace reg).regAtSend ∧
      eid ∉ (publishCall eid w trace reg).regAfter ∧
      (eid ∉ reg → (publishCall eid w trace reg).regAfter = reg)) ∧
    (∀ (eid : String) (w : Option String) (trace : List AuthEvt) (reg : List String),
      eid ∈ (authCall eid w trace reg).regAtSend ∧
      eid ∉ (authCall eid w trace reg).regAfter ∧
      (eid ∉ reg → (authCall eid w trace reg).regAfter = reg)) := by
  constructor
  · intro eid w trace reg
    exact ⟨List.mem_insert_self eid reg, not_mem_filter_out eid (reg.insert eid),
      fun h => filter_out_insert reg eid h⟩
  · intro eid w trace reg
    exact ⟨List.mem_insert_self eid reg, not_mem_filter_out eid (reg.insert eid),
      fun h => filter_out_insert reg eid h⟩

/-- Witness for registry_no_leak: a publish of event a over a registry
holding only b, resolved by timeout, restores the registry exactly. -/
theorem registry_no_leak_witness :
    "a" ∉ (["b"] : List String) ∧
      (publishCall "a" none [.ctxDone] ["b"]).regAfter = ["b"] :=
  ⟨by decide, (registry_no_leak.1 "a" none [.ctxDone] ["b"]).2.2 (by decide)⟩

/-- Runs of the QuerySync select loop: events received before the first
terminating trace event are appended in arrival order, and the loop
returns the accumulated list at the first of a closed channel, the
end-of-stored-events signal, or ctxDone. -/
theorem querySyncLoop_resolves (es acc : List NEvent) (t : QEvt) (rest : List QEvt)
    (ht : t = .eose ∨ t = .ctxDone ∨ t = .recv none) :
    querySyncLoop acc (es.map (fun e => QEvt.recv (some e)) ++ t :: rest) =
      some (acc ++ es) := by
  induction es generalizing acc with
  | nil =>
    rcases ht with h | h | h <;> subst h <;> simp [querySyncLoop]
  | cons e es ih =>
    simp only [List.map_cons, List.cons_append, querySyncLoop, List.append_eq]
    rw [ih (acc ++ [e])]
    simp

/-- Claim C9.  QuerySync returns the events delivered before the first of
the end-of-stored-events signal, the deadline, or caller cancellation, in
arrival order, ignoring whatever follows that terminator; the subscription
is unsubscribed before the call returns (the deferred Unsub runs on every
return path); and the defaulted deadline is 7 time units. -/
theorem querySync_behavior :
    (∀ (es : List NEvent) (t : QEvt) (rest : List QEvt),
      (t = .eose ∨ t = .ctxDone ∨ t = .recv none) →
      querySync (es.map (fun e => QEvt.recv (some e)) ++ t :: rest) = (some es, true)) ∧
    querySyncDefaultTimeout = 7 := by
  refine ⟨fun es t rest ht => ?_, rfl⟩
  unfold querySync
  rw [querySyncLoop_resolves es [] t rest ht]
  simp

/-- Witness for querySync_behavior: two events then the end-of-stored-
events signal yield exactly those two events in arrival order, with the
subscription unsubscribed. -/
theorem querySync_behavior_witness :
    querySync [QEvt.recv (some ⟨"a", true⟩), QEvt.recv (some ⟨"b", false⟩), QEvt.eose] =
      (some [⟨"a", true⟩, ⟨"b", false⟩], true) :=
  querySync_behavior.1 [⟨"a", true⟩, ⟨"b", false⟩] .eose [] (Or.inl rfl)

/-- Claim C8.  Connect with an empty endpoint URL cancels the connection
context and returns an error before any dial; but for every non-empty URL
Connect starts the dial in the background and returns with no error
whatever the caller deadline, because the timeout context built on
relay.go lines 85-90 (defaulting to 7 time units) is never consulted
afterwards — so, contrary to the claim and to the doc comment on lines
72-75, Connect never returns an error when the connection is not complete
before the deadline. -/
theorem connect_deadline_unused :
    (∀ (t : Option Nat), connect "" t = ⟨true, false, true, none⟩) ∧
    (∀ (url : String) (t : Option Nat), url ≠ "" →
      connect url t = ⟨false, true, false, some (t.getD 7)⟩) := by
  refine ⟨fun t => rfl, fun url t h => ?_⟩
  simp [connect, h]

/-- Witness for connect_deadline_unused: a non-empty URL with no caller
deadline dials and returns no error, with the unused timeout defaulted to
7. -/
theorem connect_deadline_unused_witness :
    ("wss://r" : String) ≠ "" ∧ connect "wss://r" none = ⟨false, true, false, some 7⟩ :=
  ⟨by decide, connect_deadline_unused.2 "wss://r" none (by decide)⟩

end GoNostr
